import Mathlib

/-!
Verification of the raster-polygon spatial measurement core of the CoDrone
repository (`src/packages/agent_tools/spatial_tools.py`).

The Python functions are shallowly embedded over exact rationals:
float values become `ℚ`, numpy arrays become `List ℚ`, Python dicts parsed
from JSON become the inductive `Json`, and the external GDAL / shapely /
pyproj backends are modelled by explicit environment records
(`RasterEnv`) whose function-valued fields stand for the library calls the
code makes (band sampling, the selected UTM coordinate transformer).
Fallible paths (Python `raise` / `try ... except`) become `Except` /
explicit error constructors.
-/

namespace SpatialTools

/-- A coordinate pair `[longitude, latitude]` (Python floats, embedded as `ℚ`). -/
abbrev Point : Type := ℚ × ℚ

/-- A polygon ring: the list of coordinate pairs of one GeoJSON ring. -/
abbrev PolyRing : Type := List Point

/-- One term of the shoelace loop in `_calculate_area_simple` (lines 421–424):
`coords[i][0]*coords[j][1] - coords[j][0]*coords[i][1]`. -/
def cross (a b : Point) : ℚ := a.1 * b.2 - b.1 * a.2

/-- Sum of `cross` over consecutive pairs of an open chain of points. -/
def segSum : List Point → ℚ
  | a :: b :: r => cross a b + segSum (b :: r)
  | _ => 0

/-- The closing term of the cyclic shoelace loop: `cross (last) (head)`,
`0` for the empty list (the Python loop body never runs then). -/
def closingTerm (l : List Point) : ℚ :=
  match l.head?, l.getLast? with
  | some h, some t => cross t h
  | _, _ => 0

/-- The full cyclic shoelace sum computed by the loop of
`_calculate_area_simple`: `Σ_{i<n} cross coords[i] coords[(i+1) % n]`.
Splitting the loop at its last iteration (`j = 0`) gives the sum over
consecutive pairs plus the closing edge, which is this definition. -/
def shoelaceSum (l : List Point) : ℚ := segSum l + closingTerm l

/-- `_calculate_area_simple` on the outer ring (lines 415–428):
`abs(shoelace loop) * 12321000`. -/
def simpleAreaRing (ring : PolyRing) : ℚ := |shoelaceSum ring| * 12321000

/-- `_calculate_geodesic_area` on the outer ring (lines 393–412): the ring is
reprojected point-wise by the external transformer `T` (pyproj, selected
from the centroid's UTM zone) and shapely's `Polygon(...).area` — the
absolute cyclic shoelace sum halved — is taken in the projected plane.
For an already-projected CRS the code skips reprojection, i.e. `T = id`. -/
def geodesicAreaRing (T : Point → Point) (ring : PolyRing) : ℚ :=
  |shoelaceSum (ring.map T)| / 2

/-- `polygon_data["coordinates"][0]`: every quantity in the module reads only
the first (outer) ring of the coordinate list. -/
def outerRing (rings : List PolyRing) : PolyRing := rings.headD []

/-- `_calculate_area_simple` as called on parsed coordinates. -/
def simpleAreaOf (rings : List PolyRing) : ℚ := simpleAreaRing (outerRing rings)

/-- `_calculate_geodesic_area` as called on parsed coordinates. -/
def geodesicAreaOf (T : Point → Point) (rings : List PolyRing) : ℚ :=
  geodesicAreaRing T (outerRing rings)

section ShoelaceLemmas

theorem cross_antisymm (a b : Point) : cross a b = -cross b a := by
  unfold cross; ring

theorem segSum_append_last (l : List Point) (b : Point) :
    segSum (l ++ [b]) =
      segSum l + (match l.getLast? with | some a => cross a b | none => 0) := by
  induction l with
  | nil => simp [segSum]
  | cons x r ih =>
    cases r with
    | nil => simp [segSum]
    | cons y t =>
      have : (x :: y :: t) ++ [b] = x :: ((y :: t) ++ [b]) := rfl
      rw [this]
      have hy : segSum (x :: (y :: t ++ [b])) =
          cross x y + segSum (y :: t ++ [b]) := rfl
      rw [hy, ih, List.getLast?_cons_cons]
      show cross x y + (segSum (y :: t) + _) = cross x y + segSum (y :: t) + _
      ring

theorem segSum_reverse (l : List Point) : segSum l.reverse = -segSum l := by
  induction l with
  | nil => simp [segSum]
  | cons x r ih =>
    cases r with
    | nil => simp [segSum]
    | cons y t =>
      have hrev : (x :: y :: t).reverse = (y :: t).reverse ++ [x] := by
        simp
      rw [hrev, segSum_append_last, ih]
      have hlast : (y :: t).reverse.getLast? = some y := by
        rw [List.getLast?_reverse]
        rfl
      rw [hlast]
      have hx : segSum (x :: y :: t) = cross x y + segSum (y :: t) := rfl
      rw [hx]
      show -segSum (y :: t) + cross y x = -(cross x y + segSum (y :: t))
      rw [cross_antisymm y x]
      ring

theorem closingTerm_reverse (l : List Point) :
    closingTerm l.reverse = -closingTerm l := by
  unfold closingTerm
  rw [List.head?_reverse, List.getLast?_reverse]
  cases hh : l.head? with
  | none => cases hl : l.getLast? <;> simp
  | some h =>
    cases hl : l.getLast? with
    | none => simp
    | some t => simp [cross_antisymm h t]

theorem shoelaceSum_reverse (l : List Point) :
    shoelaceSum l.reverse = -shoelaceSum l := by
  unfold shoelaceSum
  rw [segSum_reverse, closingTerm_reverse]
  ring

end ShoelaceLemmas

/-! ### Perimeter (`_calculate_perimeter`, lines 431–442)

The code sums `(dx*dx + dy*dy) ** 0.5` over consecutive coordinate pairs of
the raw (unprojected) outer ring, then multiplies by `111000`. The square
root forces this part of the embedding into `ℝ`. -/

/-- Sum of Euclidean edge lengths over consecutive pairs of a chain
(`for i in range(len(coords) - 1)` in the source). -/
noncomputable def distSum : List Point → ℝ
  | a :: b :: r =>
      Real.sqrt (((b.1 - a.1) * (b.1 - a.1) + (b.2 - a.2) * (b.2 - a.2) : ℚ)) +
        distSum (b :: r)
  | _ => 0

/-- `_calculate_perimeter` on the outer ring: raw lon/lat edge lengths times
the fixed conversion factor `111000`. -/
noncomputable def rawPerimeterRing (ring : PolyRing) : ℝ := distSum ring * 111000

/-- `_calculate_perimeter` as called on parsed coordinates. -/
noncomputable def perimeterOf (rings : List PolyRing) : ℝ :=
  rawPerimeterRing (outerRing rings)

/-- Modelled from the spec (§4.2): the perimeter the spec asserts — the sum of
Euclidean edge lengths of the ring coordinates after point-wise reprojection
by the transformer `T` selected for the area computation. This is the
spec-side definition of a refinement claim; the source computes
`rawPerimeterRing` instead. -/
noncomputable def specProjectedPerimeter (T : Point → Point) (ring : PolyRing) : ℝ :=
  distSum (ring.map T)

/-- The result record of `calculate_polygon_area` (lines 148–161), restricted
to the numeric fields the claims mention. `T` is the external UTM
transformer used by `_calculate_geodesic_area` on the geodesic path. -/
structure AreaResult where
  area_square_meters : ℚ
  area_hectares : ℚ
  area_acres : ℚ
  perimeter_meters : ℝ
  calculation_method : String
  coordinate_count : ℕ

/-- `calculate_polygon_area` on the geodesic path (SHAPELY available,
already-parsed valid coordinates): area from `_calculate_geodesic_area`,
perimeter from `_calculate_perimeter` on the raw coordinates. -/
noncomputable def calcPolygonArea (T : Point → Point) (rings : List PolyRing) :
    AreaResult :=
  let a := geodesicAreaOf T rings
  { area_square_meters := a
    area_hectares := a / 10000
    area_acres := a / 4047
    perimeter_meters := perimeterOf rings
    calculation_method := "geodesic"
    coordinate_count := (outerRing rings).length }

/-! ### JSON values and the polygon validator
(`_validate_polygon_geojson`, lines 226–243) -/

/-- A parsed JSON value, the possible results of `json.loads`. -/
inductive Json where
  | null : Json
  | bool (b : Bool) : Json
  | num (q : ℚ) : Json
  | str (s : String) : Json
  | arr (items : List Json) : Json
  | obj (fields : List (String × Json)) : Json

/-- `polygon_data.get(k)`: field lookup on a JSON object; `none` both when the
key is absent and when the value is not an object (in the source the latter
raises `AttributeError`, swallowed by the validator's `except`). -/
def getField (j : Json) (k : String) : Option Json :=
  match j with
  | .obj fs => fs.lookup k
  | _ => none

/-- The per-ring check of the validator's loop:
`isinstance(ring, list) and len(ring) >= 4`. -/
def ringOk : Json → Bool
  | .arr pts => 4 ≤ pts.length
  | _ => false

/-- `_validate_polygon_geojson`: type field must equal `"Polygon"`, the
`coordinates` field must be a non-empty list (Python truthiness plus
`isinstance(..., list)`), and every ring must be a list of length ≥ 4.
All other shapes — including a non-dict argument, whose `.get` call raises
and is caught by the surrounding `except` — yield `false`. -/
def validatePolygon (j : Json) : Bool :=
  match getField j "type" with
  | some (.str t) =>
      if t = "Polygon" then
        match getField j "coordinates" with
        | some (.arr (r :: rs)) => (r :: rs).all ringOk
        | _ => false
      else false
  | _ => false

/-- The claim's characterisation of validity, restated from the source's
checks: type is `"Polygon"`, coordinates a non-empty list, every ring a
list of at least 4 elements — the elements themselves are not inspected. -/
def amendedValidB (j : Json) : Bool :=
  (match getField j "type" with
   | some (.str t) => t == "Polygon"
   | _ => false) &&
    (match getField j "coordinates" with
     | some (.arr (r :: rs)) => (r :: rs).all ringOk
     | _ => false)

/-- Modelled from the spec: a ring element is a coordinate pair — an array
whose first two entries are numbers. Spec-side definition used to compare
the claim's wording (rings made of coordinate pairs) with the source. -/
def isCoordPair : Json → Bool
  | .arr (.num _ :: .num _ :: _) => true
  | _ => false

/-- Modelled from the spec: the claim's validity condition read literally —
additionally to the source's checks, every element of every ring must be a
coordinate pair. -/
def specValidC4 (j : Json) : Bool :=
  (match getField j "type" with
   | some (.str t) => t == "Polygon"
   | _ => false) &&
    (match getField j "coordinates" with
     | some (.arr (r :: rs)) =>
         (r :: rs).all (fun ring =>
           match ring with
           | .arr pts => decide (4 ≤ pts.length) && pts.all isCoordPair
           | _ => false)
     | _ => false)

/-! ### Raster model and the volume pipeline
(`_calculate_volume_with_gdal`, lines 246–350) -/

/-- The six entries of `dsm_dataset.GetGeoTransform()`:
origin x, pixel width, row rotation, origin y, column rotation, pixel
height (negative for north-up rasters). -/
structure GeoTransform where
  g0 : ℚ
  g1 : ℚ
  g2 : ℚ
  g3 : ℚ
  g4 : ℚ
  g5 : ℚ
deriving DecidableEq

/-- The raster dataset and the external backends as seen by one call:
whether `gdal.Open` succeeds, the geotransform, the raster size, the
declared no-data value, the elevation band (`sample x y` is the value
`ReadAsArray` yields for pixel column `x`, row `y`), and the UTM
transformer pyproj builds for `_calculate_geodesic_area`. -/
structure RasterEnv where
  openOk : Bool
  gt : GeoTransform
  xsize : ℤ
  ysize : ℤ
  nodata : Option ℚ
  sample : ℤ → ℤ → ℚ
  transform : Point → Point

/-- Python's `int(...)` float-to-int conversion: truncation toward zero. -/
def pyInt (q : ℚ) : ℤ := if 0 ≤ q then ⌊q⌋ else ⌈q⌉

/-- `polygon_geom.GetEnvelope()`: `(minx, maxx, miny, maxy)` over the points
added to the ring; `(0,0,0,0)` for an empty geometry. -/
def envelopeOf : PolyRing → ℚ × ℚ × ℚ × ℚ
  | [] => (0, 0, 0, 0)
  | p :: ps =>
      (ps.foldl (fun m q => min m q.1) p.1,
       ps.foldl (fun m q => max m q.1) p.1,
       ps.foldl (fun m q => min m q.2) p.2,
       ps.foldl (fun m q => max m q.2) p.2)

/-- Envelope of the outer ring of parsed coordinates (volume path builds its
OGR ring from `polygon_data["coordinates"][0]` only). -/
def envelopeOfRings (rings : List PolyRing) : ℚ × ℚ × ℚ × ℚ :=
  envelopeOf (outerRing rings)

/-- Lines 275–288: envelope corners to pixel space via the geotransform,
clamped to the raster; returns `(ulx, uly, cols, rows)`. -/
def pixelWindow (env : RasterEnv) (ring : PolyRing) : ℤ × ℤ × ℤ × ℤ :=
  let e := envelopeOf ring
  let ulx := max 0 (pyInt ((e.1 - env.gt.g0) / env.gt.g1))
  let uly := max 0 (pyInt ((e.2.2.2 - env.gt.g3) / env.gt.g5))
  let lrx := min env.xsize (pyInt ((e.2.1 - env.gt.g0) / env.gt.g1))
  let lry := min env.ysize (pyInt ((e.2.2.1 - env.gt.g3) / env.gt.g5))
  (ulx, uly, lrx - ulx, lry - uly)

/-- `dsm_band.ReadAsArray(ulx, uly, cols, rows)` flattened in C (row-major)
order, the order in which numpy's boolean mask and `flatten()` linearise
the window. -/
def readWindow (env : RasterEnv) (ulx uly cols rows : ℤ) : List ℚ :=
  (List.range rows.toNat).flatMap fun r =>
    (List.range cols.toNat).map fun c => env.sample (ulx + c) (uly + r)

/-- Lines 298–303: drop samples equal to the declared no-data value; with no
declared value the window is only flattened. -/
def filterValid (nodata : Option ℚ) (data : List ℚ) : List ℚ :=
  match nodata with
  | some nd => data.filter (fun v => v ≠ nd)
  | none => data

/-- Line 296: `pixel_area = abs(geotransform[1] * geotransform[5])`. -/
def pixelArea (gt : GeoTransform) : ℚ := |gt.g1 * gt.g5|

/-- `np.min` over a non-empty samples list (the code checks emptiness first). -/
def listMin : List ℚ → ℚ
  | [] => 0
  | a :: r => r.foldl min a

/-- Line 309–310: an omitted `base_elevation` defaults to the window minimum. -/
def resolveBase : Option ℚ → List ℚ → ℚ
  | some b, _ => b
  | none, samples => listMin samples

/-- Line 313: `height_diff = elevation_data - base_elevation`. -/
def heightDiffs (samples : List ℚ) (base : ℚ) : List ℚ :=
  samples.map (fun e => e - base)

/-- Line 315: `np.sum(height_diff[height_diff > 0]) * pixel_area`. -/
def fillVolume (samples : List ℚ) (base pa : ℚ) : ℚ :=
  ((heightDiffs samples base).filter (fun d => 0 < d)).sum * pa

/-- Line 314: `np.sum(height_diff[height_diff < 0]) * pixel_area * -1`. -/
def cutVolume (samples : List ℚ) (base pa : ℚ) : ℚ :=
  ((heightDiffs samples base).filter (fun d => d < 0)).sum * pa * (-1)

/-- Line 316: `net_volume = fill_volume - cut_volume`. -/
def netVolume (samples : List ℚ) (base pa : ℚ) : ℚ :=
  fillVolume samples base pa - cutVolume samples base pa

/-- The numeric fields of the volume result record (lines 330–350) that the
claims mention. -/
structure VolRes where
  volume_cubic_meters : ℚ
  cut_volume_cubic_meters : ℚ
  fill_volume_cubic_meters : ℚ
  area_square_meters : ℚ
  base_elevation_meters : ℚ
  average_height_meters : ℚ
  pixel_count : ℕ
deriving DecidableEq

/-- Assembly of the volume result from the valid samples, the resolved base
elevation, the pixel area and the geodesic area (lines 308–336). -/
def mkVolumeResult (valid : List ℚ) (base pa area : ℚ) : VolRes :=
  let fill := fillVolume valid base pa
  let cut := cutVolume valid base pa
  let net := fill - cut
  { volume_cubic_meters := net
    cut_volume_cubic_meters := cut
    fill_volume_cubic_meters := fill
    area_square_meters := area
    base_elevation_meters := base
    average_height_meters := if 0 < area then net / area else 0
    pixel_count := valid.length }

/-- The raster-handle operations `_calculate_volume_with_gdal` performs, in
order, recorded so resource discipline can be stated. The source contains
no close / release call, so no constructor for one is ever emitted. -/
inductive RasterOp where
  | openDS : RasterOp
  | readArray : RasterOp
  | closeDS : RasterOp
deriving DecidableEq

/-- `ring.AddPoint(coord[0], coord[1])`: a coordinate must be an array whose
first two entries are numbers; anything else raises (`TypeError` /
`IndexError`), which the tool's outer `except` turns into an error value. -/
def toPoint : Json → Except String Point
  | .arr (.num a :: .num b :: _) => .ok (a, b)
  | _ => .error "invalid coordinate in ring"

/-- `polygon_data["coordinates"][0]` converted to the OGR ring (lines
264–266); failures are the exceptions raised by subscripting / iteration. -/
def ringPointsOf (poly : Json) : Except String PolyRing :=
  match getField poly "coordinates" with
  | some (.arr (first :: _)) =>
      match first with
      | .arr pts => pts.mapM toPoint
      | _ => .error "ring is not a list"
  | some (.arr []) => .error "list index out of range"
  | _ => .error "coordinates missing"

/-- `_calculate_volume_with_gdal`, paired with the trace of raster-handle
operations it performs on that control path. Every `raise` in the source
is an `.error`; the list records that the dataset is opened (line 254) and
read (line 293) but never released on any path. -/
def gdalVolumeRun (env : RasterEnv) (dsmPath : String) (poly : Json)
    (baseArg : Option ℚ) : Except String VolRes × List RasterOp :=
  if env.openOk = false then
    (.error ("Could not open DSM file: " ++ dsmPath), [.openDS])
  else
    match ringPointsOf poly with
    | .error m => (.error m, [.openDS])
    | .ok ring =>
      let w := pixelWindow env ring
      if w.2.2.1 ≤ 0 ∨ w.2.2.2 ≤ 0 then
        (.error "Polygon does not intersect with DSM raster", [.openDS])
      else
        let valid := filterValid env.nodata (readWindow env w.1 w.2.1 w.2.2.1 w.2.2.2)
        if valid = [] then
          (.error "No valid elevation data found within polygon",
           [.openDS, .readArray])
        else
          let base := resolveBase baseArg valid
          (.ok (mkVolumeResult valid base (pixelArea env.gt)
                  (geodesicAreaRing env.transform ring)),
           [.openDS, .readArray])

/-- The full input state of one `calculate_volume_from_polygon` call:
the result of `json.loads` on the polygon string (`.error` = the parse
exception's message), the DSM path, whether that path exists, and the
raster environment. GDAL and shapely are taken as available (the
production configuration; otherwise the code runs a mock instead). -/
structure VolEnv where
  parseResult : Except String Json
  dsmPath : String
  fileExists : Bool
  raster : RasterEnv

/-- The tool's return value: the JSON it serialises either carries the result
fields (`ok`) or an `"error"` key (`err`). -/
inductive VolOutput where
  | ok (r : VolRes) : VolOutput
  | err (msg : String) : VolOutput

/-- `calculate_volume_from_polygon` (lines 69–116): parse, validate, check the
file, run the GDAL pipeline; every exception raised inside the `try` block
is caught and returned as `{"error": "Volume calculation failed: ..."}`. -/
def calculateVolumeFromPolygon (env : VolEnv) (baseArg : Option ℚ) : VolOutput :=
  match env.parseResult with
  | .error m => .err ("Volume calculation failed: " ++ m)
  | .ok poly =>
    if validatePolygon poly = false then
      .err "Invalid GeoJSON polygon format"
    else if env.fileExists = false then
      .err ("DSM file not found: " ++ env.dsmPath)
    else
      match (gdalVolumeRun env.raster env.dsmPath poly baseArg).1 with
      | .error m => .err ("Volume calculation failed: " ++ m)
      | .ok r => .ok r

/-! ### Elevation statistics (`_calculate_elevation_stats`, lines 445–458)

The source function is a stub: despite its docstring ("Calculate elevation
statistics within polygon using GDAL") and the comment announcing the same
logic as the volume path, its body returns a fixed dictionary of constants
and never touches the polygon or the raster. The embedding reproduces
exactly that. -/

/-- The dictionary returned by `_calculate_elevation_stats`. -/
structure ElevStats where
  min_elevation : ℚ
  max_elevation : ℚ
  mean_elevation : ℚ
  std_elevation : ℚ
  median_elevation : ℚ
  elevation_range : ℚ
deriving DecidableEq

/-- `_calculate_elevation_stats(polygon_data, dsm_path)`: both arguments are
ignored, the returned statistics are hard-coded constants. -/
def calcElevationStats (poly : Json) (dsmPath : String) : ElevStats :=
  { min_elevation := 98.5
    max_elevation := 105.2
    mean_elevation := 102.5
    std_elevation := 1.8
    median_elevation := 102.1
    elevation_range := 6.7 }

/-! ### Helper lemmas for sums, filters and minima -/

theorem qsum_nonneg (l : List ℚ) (h : ∀ x ∈ l, 0 ≤ x) : 0 ≤ l.sum := by
  induction l with
  | nil => simp
  | cons a r ih =>
    rw [List.sum_cons]
    have ha : 0 ≤ a := h a (List.mem_cons_self a r)
    have hr : 0 ≤ r.sum := ih fun x hx => h x (List.mem_cons_of_mem a hx)
    exact add_nonneg ha hr

theorem qsum_nonpos (l : List ℚ) (h : ∀ x ∈ l, x ≤ 0) : l.sum ≤ 0 := by
  induction l with
  | nil => simp
  | cons a r ih =>
    rw [List.sum_cons]
    have ha : a ≤ 0 := h a (List.mem_cons_self a r)
    have hr : r.sum ≤ 0 := ih fun x hx => h x (List.mem_cons_of_mem a hx)
    exact add_nonpos ha hr

theorem filter_map_comm (l : List ℚ) (f : ℚ → ℚ) (p : ℚ → Bool) :
    (l.map f).filter p = (l.filter (fun x => p (f x))).map f := by
  induction l with
  | nil => rfl
  | cons a r ih =>
    by_cases h : p (f a)
    · simp [List.filter, h, ih]
    · simp [List.filter, h, ih]

theorem filter_none (p : ℚ → Bool) (l : List ℚ) (h : ∀ x ∈ l, p x = false) :
    l.filter p = [] := by
  induction l with
  | nil => rfl
  | cons a r ih =>
    have ha := h a (List.mem_cons_self a r)
    simp [List.filter, ha, ih fun x hx => h x (List.mem_cons_of_mem a hx)]

theorem foldl_min_le_init (l : List ℚ) (a : ℚ) : l.foldl min a ≤ a := by
  induction l generalizing a with
  | nil => exact le_refl a
  | cons c t ih =>
    calc t.foldl min (min a c) ≤ min a c := ih (min a c)
    _ ≤ a := min_le_left a c

theorem foldl_min_le_mem (l : List ℚ) (a x : ℚ) (h : x ∈ l) :
    l.foldl min a ≤ x := by
  induction l generalizing a with
  | nil => cases h
  | cons c t ih =>
    rcases List.mem_cons.mp h with rfl | hx
    · calc t.foldl min (min a x) ≤ min a x := foldl_min_le_init t (min a x)
      _ ≤ x := min_le_right a x
    · exact ih (min a c) hx

theorem foldl_min_mem (l : List ℚ) (a : ℚ) :
    l.foldl min a = a ∨ l.foldl min a ∈ l := by
  induction l generalizing a with
  | nil => exact Or.inl rfl
  | cons c t ih =>
    rcases ih (min a c) with heq | hmem
    · rcases min_choice a c with hc | hc
      · exact Or.inl (by rw [List.foldl_cons, heq, hc])
      · exact Or.inr (by rw [List.foldl_cons, heq, hc]; exact List.mem_cons_self c t)
    · exact Or.inr (List.mem_cons_of_mem c hmem)

theorem listMin_le (l : List ℚ) (x : ℚ) (h : x ∈ l) : listMin l ≤ x := by
  cases l with
  | nil => cases h
  | cons a r =>
    rcases List.mem_cons.mp h with rfl | hx
    · exact foldl_min_le_init r x
    · exact foldl_min_le_mem r a x hx

theorem listMin_mem (l : List ℚ) (h : l ≠ []) : listMin l ∈ l := by
  cases l with
  | nil => exact absurd rfl h
  | cons a r =>
    rcases foldl_min_mem r a with heq | hmem
    · rw [listMin, heq]; exact List.mem_cons_self a r
    · exact List.mem_cons_of_mem a hmem

/-! ### Claim theorems -/

/-- C1: for every elevation window, base elevation and geotransform-derived
pixel area, the volume computation of `_calculate_volume_with_gdal` (lines
308–316) satisfies: `fill_volume` is the sum of the positive elevation
excesses over the base times the pixel area, `cut_volume` is the absolute
value of the sum of the negative excesses times the pixel area, both are
non-negative, and the reported `volume_cubic_meters` equals
`fill_volume - cut_volume`. -/
theorem volume_cut_fill_decomposition (samples : List ℚ) (base : ℚ)
    (gt : GeoTransform) (area : ℚ) :
    fillVolume samples base (pixelArea gt) =
        ((samples.filter (fun e => 0 < e - base)).map (fun e => e - base)).sum *
          pixelArea gt
    ∧ cutVolume samples base (pixelArea gt) =
        |((samples.filter (fun e => e - base < 0)).map (fun e => e - base)).sum| *
          pixelArea gt
    ∧ 0 ≤ fillVolume samples base (pixelArea gt)
    ∧ 0 ≤ cutVolume samples base (pixelArea gt)
    ∧ (mkVolumeResult samples base (pixelArea gt) area).volume_cubic_meters =
        fillVolume samples base (pixelArea gt) -
          cutVolume samples base (pixelArea gt) := by
  have hpa : 0 ≤ pixelArea gt := abs_nonneg _
  have hfill : fillVolume samples base (pixelArea gt) =
      ((samples.filter (fun e => 0 < e - base)).map (fun e => e - base)).sum *
        pixelArea gt := by
    unfold fillVolume heightDiffs
    rw [filter_map_comm]
  have hposs : 0 ≤ ((heightDiffs samples base).filter (fun d => 0 < d)).sum := by
    apply qsum_nonneg
    intro x hx
    have := (List.mem_filter.mp hx).2
    exact le_of_lt (of_decide_eq_true this)
  have hnegs : ((heightDiffs samples base).filter (fun d => d < 0)).sum ≤ 0 := by
    apply qsum_nonpos
    intro x hx
    have := (List.mem_filter.mp hx).2
    exact le_of_lt (of_decide_eq_true this)
  have hcut : cutVolume samples base (pixelArea gt) =
      |((samples.filter (fun e => e - base < 0)).map (fun e => e - base)).sum| *
        pixelArea gt := by
    unfold cutVolume
    rw [show ((heightDiffs samples base).filter (fun d => d < 0)) =
        ((samples.filter (fun e => e - base < 0)).map (fun e => e - base)) by
      unfold heightDiffs; rw [filter_map_comm]]
    rw [abs_of_nonpos (by
      rw [show ((samples.filter (fun e => e - base < 0)).map (fun e => e - base)) =
          ((heightDiffs samples base).filter (fun d => d < 0)) by
        unfold heightDiffs; rw [filter_map_comm]]
      exact hnegs)]
    ring
  refine ⟨hfill, hcut, ?_, ?_, rfl⟩
  · unfold fillVolume
    exact mul_nonneg hposs hpa
  · unfold cutVolume
    have : 0 ≤ -((heightDiffs samples base).filter (fun d => d < 0)).sum :=
      neg_nonneg.mpr hnegs
    calc (0 : ℚ) ≤ -((heightDiffs samples base).filter (fun d => d < 0)).sum *
        pixelArea gt := mul_nonneg this hpa
    _ = ((heightDiffs samples base).filter (fun d => d < 0)).sum *
        pixelArea gt * (-1) := by ring

/-- C2: with `base_elevation` omitted, the base defaults to the minimum
elevation of the (non-empty) window (lines 309–310); consequently no
height difference is negative, `cut_volume = 0`, and the reported net
volume equals the fill volume, which is non-negative. -/
theorem default_base_zero_cut (samples : List ℚ) (h : samples ≠ [])
    (gt : GeoTransform) (area : ℚ) :
    resolveBase none samples = listMin samples
    ∧ listMin samples ∈ samples
    ∧ (∀ e ∈ samples, listMin samples ≤ e)
    ∧ cutVolume samples (resolveBase none samples) (pixelArea gt) = 0
    ∧ netVolume samples (resolveBase none samples) (pixelArea gt) =
        fillVolume samples (resolveBase none samples) (pixelArea gt)
    ∧ 0 ≤ netVolume samples (resolveBase none samples) (pixelArea gt)
    ∧ (mkVolumeResult samples (resolveBase none samples) (pixelArea gt)
        area).cut_volume_cubic_meters = 0 := by
  have hmin : ∀ e ∈ samples, listMin samples ≤ e := fun e he => listMin_le samples e he
  have hfilter : (heightDiffs samples (listMin samples)).filter
      (fun d => d < 0) = [] := by
    apply filter_none
    intro x hx
    rcases List.mem_map.mp hx with ⟨e, he, rfl⟩
    exact decide_eq_false (not_lt.mpr (sub_nonneg.mpr (hmin e he)))
  have hcut : cutVolume samples (resolveBase none samples) (pixelArea gt) = 0 := by
    show cutVolume samples (listMin samples) (pixelArea gt) = 0
    unfold cutVolume
    rw [hfilter]
    simp
  have hpa : 0 ≤ pixelArea gt := abs_nonneg _
  have hfillnn : 0 ≤ fillVolume samples (resolveBase none samples) (pixelArea gt) := by
    apply mul_nonneg _ hpa
    apply qsum_nonneg
    intro x hx
    exact le_of_lt (of_decide_eq_true (List.mem_filter.mp hx).2)
  refine ⟨rfl, listMin_mem samples h, hmin, hcut, ?_, ?_, ?_⟩
  · unfold netVolume
    rw [hcut]
    ring
  · unfold netVolume
    rw [hcut]
    simpa using hfillnn
  · exact hcut

/-- Witness for C2 at the window `[5, 3, 7]` with the geotransform
`(0, 2, 0, 10, 0, -3)` (pixel area 6): the defaulted base is the window
minimum 3, the cut volume is zero and it belongs to the window. -/
theorem default_base_zero_cut_witness :
    cutVolume [5, 3, 7] (resolveBase none [5, 3, 7])
        (pixelArea ⟨0, 2, 0, 10, 0, -3⟩) = 0
    ∧ listMin [5, 3, 7] ∈ ([5, 3, 7] : List ℚ) :=
  ⟨(default_base_zero_cut [5, 3, 7] (by decide) ⟨0, 2, 0, 10, 0, -3⟩ 4).2.2.2.1,
   (default_base_zero_cut [5, 3, 7] (by decide) ⟨0, 2, 0, 10, 0, -3⟩ 4).2.1⟩

/-- C8: both area computations are non-negative and invariant under reversing
the ring's winding direction. `_calculate_area_simple` takes the absolute
value of the cyclic shoelace sum, which is negated by reversal;
`_calculate_geodesic_area` takes shapely's absolute area of the
`T`-projected ring (the same transformer applies to the reversed ring,
whose centroid — hence UTM zone — is unchanged). -/
theorem area_nonneg_winding_invariant (T : Point → Point) (ring : PolyRing) :
    0 ≤ simpleAreaRing ring
    ∧ simpleAreaRing ring.reverse = simpleAreaRing ring
    ∧ 0 ≤ geodesicAreaRing T ring
    ∧ geodesicAreaRing T ring.reverse = geodesicAreaRing T ring := by
  refine ⟨mul_nonneg (abs_nonneg _) (by norm_num), ?_, ?_, ?_⟩
  · unfold simpleAreaRing
    rw [shoelaceSum_reverse, abs_neg]
  · exact div_nonneg (abs_nonneg _) (by norm_num)
  · unfold geodesicAreaRing
    rw [List.map_reverse, shoelaceSum_reverse, abs_neg]

/-- The Scenario A polygon: the unit square ring
`[[0,0],[1,0],[1,1],[0,1],[0,0]]`. -/
def scenarioSquare : PolyRing := [(0, 0), (1, 0), (1, 1), (0, 1), (0, 0)]

/-- C5 counterexample: on the simple-approximation path the unit square does
NOT yield approximately `111000² = 12321000000` square meters. The raw
shoelace loop gives `2` (twice the unit area — no `0.5` factor), and the
conversion factor is `12321000`, a thousandth of `111000²`: the result is
`24642000`, exactly 500 times smaller than the claimed value. -/
theorem simple_area_square_counterexample :
    simpleAreaOf [scenarioSquare] = 24642000
    ∧ simpleAreaOf [scenarioSquare] * 500 = 111000 * 111000 := by
  have hs : shoelaceSum scenarioSquare = 2 := by
    simp [shoelaceSum, segSum, closingTerm, cross, scenarioSquare]
    norm_num
  have ha : simpleAreaOf [scenarioSquare] = 24642000 := by
    unfold simpleAreaOf simpleAreaRing outerRing
    rw [show ([scenarioSquare].headD [] : PolyRing) = scenarioSquare from rfl, hs]
    norm_num
  exact ⟨ha, by rw [ha]; norm_num⟩

/-- C5 amended: the simple-approximation path on the Scenario A square yields
`area_square_meters = |raw shoelace sum| × 12321000 = 2 × 12321000 =
24642000` — the unhalved shoelace result times the source's fixed factor,
500 times below `111000²`. -/
theorem simple_area_square_amended :
    simpleAreaOf [scenarioSquare] = 2 * 12321000
    ∧ |shoelaceSum scenarioSquare| = 2 := by
  have hs : shoelaceSum scenarioSquare = 2 := by
    simp [shoelaceSum, segSum, closingTerm, cross, scenarioSquare]
    norm_num
  constructor
  · unfold simpleAreaOf simpleAreaRing outerRing
    rw [show ([scenarioSquare].headD [] : PolyRing) = scenarioSquare from rfl, hs]
    norm_num
  · rw [hs]
    norm_num

/-- A `"Polygon"` object whose single ring is a list of four plain numbers —
not coordinate pairs. -/
def polyNonPairRing : Json :=
  .obj [("type", .str "Polygon"),
        ("coordinates", .arr [.arr [.num 1, .num 2, .num 3, .num 4]])]

/-- C4 counterexample: the validator accepts a polygon whose ring is a list of
four numbers, although no element is a coordinate pair — the "if and only
if" of the claim fails in the forward direction, because the source checks
only `isinstance(ring, list) and len(ring) >= 4` and never inspects the
ring's elements. -/
theorem validator_accepts_nonpair_ring :
    validatePolygon polyNonPairRing = true
    ∧ specValidC4 polyNonPairRing = false := by
  constructor <;> rfl

/-- A valid-by-the-source quadrilateral whose first point differs from its
last (the ring does not close). -/
def unclosedQuad : Json :=
  .obj [("type", .str "Polygon"),
        ("coordinates", .arr [.arr [.arr [.num 0, .num 0], .arr [.num 4, .num 0],
          .arr [.num 4, .num 3], .arr [.num 2, .num 5]]])]

/-- C4 amended: the validator returns true exactly when the type field is
`"Polygon"`, the coordinates field is a non-empty list, and every ring is
a list of at least 4 elements — the elements themselves are not inspected
(they need not be coordinate pairs); it is total (the source's `except`
returns false instead of raising), and ring closure is irrelevant: the
unclosed quadrilateral validates. -/
theorem validator_characterisation :
    (∀ j, validatePolygon j = amendedValidB j)
    ∧ validatePolygon unclosedQuad = true := by
  constructor
  · intro j
    unfold validatePolygon amendedValidB
    cases hty : getField j "type" with
    | none => rfl
    | some v =>
      cases v with
      | str t =>
        by_cases ht : t = "Polygon"
        · simp only [ht, if_true, beq_self_eq_true, Bool.true_and]
        · simp only [ht, if_false, Bool.false_and]
          rw [show (t == "Polygon") = false from beq_eq_false_iff_ne.mpr ht]
          rfl
      | null => rfl
      | bool b => rfl
      | num q => rfl
      | arr l => rfl
      | obj fs => rfl
  · rfl

/-- The JSON object `{"type": "Polygon", "coordinates": rings}`. -/
def mkPolygonJson (rings : List Json) : Json :=
  .obj [("type", .str "Polygon"), ("coordinates", .arr rings)]

/-- C10: every computed quantity — simple and geodesic area, perimeter, the
raster clip envelope, and the whole volume pipeline — reads only
`coordinates[0]`: the result on a multi-ring polygon equals the result
after dropping every ring past the first; and validation accepts the
inner rings whenever they pass the per-ring check. -/
theorem only_outer_ring_used (T : Point → Point) (r : PolyRing)
    (rest : List PolyRing) (env : RasterEnv) (dsmPath : String) (jr : Json)
    (jrest : List Json) (b : Option ℚ) :
    simpleAreaOf (r :: rest) = simpleAreaOf [r]
    ∧ geodesicAreaOf T (r :: rest) = geodesicAreaOf T [r]
    ∧ perimeterOf (r :: rest) = perimeterOf [r]
    ∧ envelopeOfRings (r :: rest) = envelopeOfRings [r]
    ∧ gdalVolumeRun env dsmPath (mkPolygonJson (jr :: jrest)) b =
        gdalVolumeRun env dsmPath (mkPolygonJson [jr]) b
    ∧ ((∀ x ∈ jr :: jrest, ringOk x = true) →
        validatePolygon (mkPolygonJson (jr :: jrest)) = true) := by
  refine ⟨rfl, rfl, rfl, rfl, ?_, ?_⟩
  · have hr : ringPointsOf (mkPolygonJson (jr :: jrest)) =
        ringPointsOf (mkPolygonJson [jr]) := rfl
    unfold gdalVolumeRun
    rw [hr]
  · intro h
    have hall : (jr :: jrest).all ringOk = true := List.all_eq_true.mpr h
    have h2 : getField (mkPolygonJson (jr :: jrest)) "coordinates" =
        some (.arr (jr :: jrest)) := rfl
    unfold validatePolygon
    rw [show getField (mkPolygonJson (jr :: jrest)) "type" =
        some (.str "Polygon") from rfl]
    rw [h2]
    simpa using hall

/-- Witness for C10: a concrete two-ring polygon (outer square plus an inner
triangle-like ring of 4 points) is accepted by validation, and the simple
area ignores the inner ring. -/
theorem only_outer_ring_used_witness :
    validatePolygon (mkPolygonJson
        [.arr [.arr [.num 0, .num 0], .arr [.num 9, .num 0],
               .arr [.num 9, .num 9], .arr [.num 0, .num 0]],
         .arr [.arr [.num 1, .num 1], .arr [.num 2, .num 1],
               .arr [.num 2, .num 2], .arr [.num 1, .num 1]]]) = true
    ∧ simpleAreaOf [[(0, 0), (9, 0), (9, 9), (0, 0)],
          [(1, 1), (2, 1), (2, 2), (1, 1)]] =
        simpleAreaOf [[(0, 0), (9, 0), (9, 9), (0, 0)]] :=
  ⟨(only_outer_ring_used id [(0, 0), (9, 0), (9, 9), (0, 0)]
      [[(1, 1), (2, 1), (2, 2), (1, 1)]]
      ⟨true, ⟨0, 1, 0, 0, 0, -1⟩, 1, 1, none, fun _ _ => 0, id⟩ "dsm.tif"
      (.arr [.arr [.num 0, .num 0], .arr [.num 9, .num 0],
             .arr [.num 9, .num 9], .arr [.num 0, .num 0]])
      [.arr [.arr [.num 1, .num 1], .arr [.num 2, .num 1],
             .arr [.num 2, .num 2], .arr [.num 1, .num 1]]]
      none).2.2.2.2.2 (by decide),
   (only_outer_ring_used id [(0, 0), (9, 0), (9, 9), (0, 0)]
      [[(1, 1), (2, 1), (2, 2), (1, 1)]]
      ⟨true, ⟨0, 1, 0, 0, 0, -1⟩, 1, 1, none, fun _ _ => 0, id⟩ "dsm.tif"
      (.arr [.arr [.num 0, .num 0], .arr [.num 9, .num 0],
             .arr [.num 9, .num 9], .arr [.num 0, .num 0]])
      [.arr [.arr [.num 1, .num 1], .arr [.num 2, .num 1],
             .arr [.num 2, .num 2], .arr [.num 1, .num 1]]]
      none).1⟩

/-- A 1×1 raster whose single valid sample is 42 (no-data value 0): a probe
window whose contents differ from the stub's constants. -/
def statsProbeEnv : RasterEnv :=
  ⟨true, ⟨0, 1, 0, 1, 0, -1⟩, 1, 1, some 0, fun _ _ => 42, id⟩

/-- C6 (code bug): `_calculate_elevation_stats` is a stub — it ignores both
the polygon and the raster and returns a fixed dictionary of constants, so
the reported statistics never depend on the elevation window produced by
the clip. Here the constancy over arbitrary inputs, and a concrete window
whose single valid sample is 42 while the reported minimum stays 98.5.
(The constants do satisfy `range = max - min`; the bug is that none of
them come from the window.) -/
theorem elevation_stats_ignore_window :
    (∀ p1 p2 d1 d2, calcElevationStats p1 d1 = calcElevationStats p2 d2)
    ∧ filterValid (some 0) (readWindow statsProbeEnv 0 0 1 1) = [42]
    ∧ (calcElevationStats (mkPolygonJson []) "dsm.tif").min_elevation = 98.5
    ∧ (calcElevationStats (mkPolygonJson []) "dsm.tif").min_elevation ≠
        listMin (filterValid (some 0) (readWindow statsProbeEnv 0 0 1 1))
    ∧ (calcElevationStats (mkPolygonJson []) "dsm.tif").elevation_range =
        (calcElevationStats (mkPolygonJson []) "dsm.tif").max_elevation -
          (calcElevationStats (mkPolygonJson []) "dsm.tif").min_elevation := by
  have hw : filterValid (some 0) (readWindow statsProbeEnv 0 0 1 1) = [42] := by
    decide
  refine ⟨fun p1 p2 d1 d2 => rfl, hw, rfl, ?_, by norm_num [calcElevationStats]⟩
  rw [hw]
  rw [show listMin [42] = (42 : ℚ) from rfl]
  norm_num [calcElevationStats]

/-- The trace of raster-handle operations along every control path of
`_calculate_volume_with_gdal`: the dataset is opened, possibly read, and
on no path released. -/
theorem gdalVolumeRun_trace (env : RasterEnv) (dsmPath : String) (poly : Json)
    (b : Option ℚ) :
    (gdalVolumeRun env dsmPath poly b).2 = [RasterOp.openDS] ∨
    (gdalVolumeRun env dsmPath poly b).2 = [RasterOp.openDS, RasterOp.readArray] := by
  unfold gdalVolumeRun
  by_cases h1 : env.openOk = false
  · simp [h1]
  · simp only [h1, if_false]
    cases hr : ringPointsOf poly with
    | error m => simp
    | ok ring =>
      by_cases h2 : (pixelWindow env ring).2.2.1 ≤ 0 ∨ (pixelWindow env ring).2.2.2 ≤ 0
      · simp [h2]
      · simp only [h2, if_false]
        by_cases h3 : filterValid env.nodata
            (readWindow env (pixelWindow env ring).1 (pixelWindow env ring).2.1
              (pixelWindow env ring).2.2.1 (pixelWindow env ring).2.2.2) = []
        · simp [h3]
        · simp [h3]

/-- C9 amended: no exit path of `_calculate_volume_with_gdal` releases the
dataset handle before returning — the source contains no close/release
call at all (the handle is reclaimed only by the Python runtime after the
call); every path's trace starts with the open and never contains a
release. -/
theorem raster_handle_never_released (env : RasterEnv) (dsmPath : String)
    (poly : Json) (b : Option ℚ) :
    RasterOp.closeDS ∉ (gdalVolumeRun env dsmPath poly b).2
    ∧ (gdalVolumeRun env dsmPath poly b).2.head? = some RasterOp.openDS := by
  rcases gdalVolumeRun_trace env dsmPath poly b with h | h <;> rw [h] <;>
    exact ⟨by decide, rfl⟩

/-- A 2×2 raster of uniform elevation 10 covering the square `(0,0)–(2,2)`,
under which the volume pipeline succeeds. -/
def volProbeEnv : RasterEnv :=
  ⟨true, ⟨0, 1, 0, 2, 0, -1⟩, 2, 2, none, fun _ _ => 10, id⟩

/-- The closed square `(0,0) (2,0) (2,2) (0,2)` as a GeoJSON polygon value. -/
def sqPolyJson : Json :=
  mkPolygonJson [.arr [.arr [.num 0, .num 0], .arr [.num 2, .num 0],
    .arr [.num 2, .num 2], .arr [.num 0, .num 2], .arr [.num 0, .num 0]]]

/-- The same square as parsed ring points. -/
def sqRing : PolyRing := [(0, 0), (2, 0), (2, 2), (0, 2), (0, 0)]

theorem sq_ringPoints : ringPointsOf sqPolyJson = .ok sqRing := rfl

theorem sq_pixelWindow : pixelWindow volProbeEnv sqRing = (0, 0, 2, 2) := by
  have he : envelopeOf sqRing = (0, 2, 0, 2) := rfl
  unfold pixelWindow
  rw [he]
  show (max 0 (pyInt ((0 - volProbeEnv.gt.g0) / volProbeEnv.gt.g1)),
        max 0 (pyInt ((2 - volProbeEnv.gt.g3) / volProbeEnv.gt.g5)),
        min volProbeEnv.xsize (pyInt ((2 - volProbeEnv.gt.g0) / volProbeEnv.gt.g1)) -
          max 0 (pyInt ((0 - volProbeEnv.gt.g0) / volProbeEnv.gt.g1)),
        min volProbeEnv.ysize (pyInt ((0 - volProbeEnv.gt.g3) / volProbeEnv.gt.g5)) -
          max 0 (pyInt ((2 - volProbeEnv.gt.g3) / volProbeEnv.gt.g5))) =
      ((0 : ℤ), (0 : ℤ), (2 : ℤ), (2 : ℤ))
  norm_num [pyInt, volProbeEnv]

/-- C9 counterexample: on a concrete successful run (the probe raster, the
unit square polygon, default base) the operation's trace is
`[open, read]` — the dataset handle is not released before the operation
returns, refuting "released on every exit path". -/
theorem raster_handle_counterexample :
    (gdalVolumeRun volProbeEnv "dsm.tif" sqPolyJson none).2 =
        [RasterOp.openDS, RasterOp.readArray]
    ∧ RasterOp.closeDS ∉ (gdalVolumeRun volProbeEnv "dsm.tif" sqPolyJson none).2
    ∧ (gdalVolumeRun volProbeEnv "dsm.tif" sqPolyJson none).1 =
        .ok (mkVolumeResult [10, 10, 10, 10] 10 1 (geodesicAreaRing id sqRing)) := by
  have hread : readWindow volProbeEnv 0 0 2 2 = [10, 10, 10, 10] := rfl
  have hpa : pixelArea volProbeEnv.gt = 1 := by
    norm_num [pixelArea, volProbeEnv]
  have hrun : gdalVolumeRun volProbeEnv "dsm.tif" sqPolyJson none =
      (.ok (mkVolumeResult [10, 10, 10, 10] 10 1 (geodesicAreaRing id sqRing)),
       [RasterOp.openDS, RasterOp.readArray]) := by
    unfold gdalVolumeRun
    rw [sq_ringPoints]
    simp only [sq_pixelWindow, hread]
    norm_num [filterValid, resolveBase, listMin, volProbeEnv]
    rw [if_neg (show ¬([10, 10, 10, 10] : List ℚ) = [] by decide)]
    norm_num [pixelArea]
  refine ⟨by rw [hrun], by rw [hrun]; decide, by rw [hrun]⟩

/-- C3: every failure class of the volume tool is returned as a structured
error value with a class-specific message, never as an escaping exception:
a JSON parse failure and every `raise` inside the GDAL pipeline surface as
`"Volume calculation failed: <reason>"` through the tool's catch-all
`except`, an invalid polygon as `"Invalid GeoJSON polygon format"`, a
missing DSM file as `"DSM file not found: <path>"`, a non-intersecting
clamped window as the no-intersection message and an all-no-data window as
the empty-window message — and the fixed messages are pairwise distinct. -/
theorem volume_tool_error_paths (env : VolEnv) (b : Option ℚ) :
    (∀ m, env.parseResult = .error m →
        calculateVolumeFromPolygon env b =
          .err ("Volume calculation failed: " ++ m))
    ∧ (∀ p, env.parseResult = .ok p → validatePolygon p = false →
        calculateVolumeFromPolygon env b = .err "Invalid GeoJSON polygon format")
    ∧ (∀ p, env.parseResult = .ok p → validatePolygon p = true →
        env.fileExists = false →
        calculateVolumeFromPolygon env b =
          .err ("DSM file not found: " ++ env.dsmPath))
    ∧ (∀ p ring, env.parseResult = .ok p → validatePolygon p = true →
        env.fileExists = true → env.raster.openOk = true →
        ringPointsOf p = .ok ring →
        ((pixelWindow env.raster ring).2.2.1 ≤ 0 ∨
          (pixelWindow env.raster ring).2.2.2 ≤ 0) →
        calculateVolumeFromPolygon env b =
          .err "Volume calculation failed: Polygon does not intersect with DSM raster")
    ∧ (∀ p ring, env.parseResult = .ok p → validatePolygon p = true →
        env.fileExists = true → env.raster.openOk = true →
        ringPointsOf p = .ok ring →
        ¬((pixelWindow env.raster ring).2.2.1 ≤ 0 ∨
          (pixelWindow env.raster ring).2.2.2 ≤ 0) →
        filterValid env.raster.nodata
          (readWindow env.raster (pixelWindow env.raster ring).1
            (pixelWindow env.raster ring).2.1 (pixelWindow env.raster ring).2.2.1
            (pixelWindow env.raster ring).2.2.2) = [] →
        calculateVolumeFromPolygon env b =
          .err "Volume calculation failed: No valid elevation data found within polygon")
    ∧ (∀ p m, env.parseResult = .ok p → validatePolygon p = true →
        env.fileExists = true →
        (gdalVolumeRun env.raster env.dsmPath p b).1 = .error m →
        calculateVolumeFromPolygon env b =
          .err ("Volume calculation failed: " ++ m))
    ∧ ("Invalid GeoJSON polygon format" ≠
        "Volume calculation failed: Polygon does not intersect with DSM raster"
      ∧ "Invalid GeoJSON polygon format" ≠
        "Volume calculation failed: No valid elevation data found within polygon"
      ∧ "Volume calculation failed: Polygon does not intersect with DSM raster" ≠
        "Volume calculation failed: No valid elevation data found within polygon") := by
  have hout : ∀ p m, env.parseResult = .ok p → validatePolygon p = true →
      env.fileExists = true →
      (gdalVolumeRun env.raster env.dsmPath p b).1 = .error m →
      calculateVolumeFromPolygon env b =
        .err ("Volume calculation failed: " ++ m) := by
    intro p m hp hv hf hrun
    unfold calculateVolumeFromPolygon
    rw [hp]
    simp [hv, hf, hrun]
  refine ⟨?_, ?_, ?_, ?_, ?_, hout, by decide, by decide, by decide⟩
  · intro m hm
    unfold calculateVolumeFromPolygon
    rw [hm]
  · intro p hp hv
    unfold calculateVolumeFromPolygon
    rw [hp]
    simp [hv]
  · intro p hp hv hf
    unfold calculateVolumeFromPolygon
    rw [hp]
    simp [hv, hf]
  · intro p ring hp hv hf hopen hring hw
    refine hout p _ hp hv hf ?_
    unfold gdalVolumeRun
    simp only [hopen, hring]
    simp only [Bool.true_eq_false, if_false]
    rw [if_pos hw]
  · intro p ring hp hv hf hopen hring hnw hempty
    refine hout p _ hp hv hf ?_
    unfold gdalVolumeRun
    simp only [hopen, hring]
    simp only [Bool.true_eq_false, if_false]
    rw [if_neg hnw, if_pos hempty]

/-- A raster whose extent `(100,200)–(102,198)` misses the square polygon. -/
def offsetRaster : RasterEnv :=
  ⟨true, ⟨100, 1, 0, 200, 0, -1⟩, 2, 2, none, fun _ _ => 10, id⟩

/-- A raster intersecting the square polygon whose every sample equals its
declared no-data value 99. -/
def nodataRaster : RasterEnv :=
  ⟨true, ⟨0, 1, 0, 2, 0, -1⟩, 2, 2, some 99, fun _ _ => 99, id⟩

theorem offset_pixelWindow : pixelWindow offsetRaster sqRing = (0, 198, -98, -196) := by
  have he : envelopeOf sqRing = (0, 2, 0, 2) := rfl
  unfold pixelWindow
  rw [he]
  show (max 0 (pyInt ((0 - offsetRaster.gt.g0) / offsetRaster.gt.g1)),
        max 0 (pyInt ((2 - offsetRaster.gt.g3) / offsetRaster.gt.g5)),
        min offsetRaster.xsize (pyInt ((2 - offsetRaster.gt.g0) / offsetRaster.gt.g1)) -
          max 0 (pyInt ((0 - offsetRaster.gt.g0) / offsetRaster.gt.g1)),
        min offsetRaster.ysize (pyInt ((0 - offsetRaster.gt.g3) / offsetRaster.gt.g5)) -
          max 0 (pyInt ((2 - offsetRaster.gt.g3) / offsetRaster.gt.g5))) =
      ((0 : ℤ), (198 : ℤ), (-98 : ℤ), (-196 : ℤ))
  norm_num [pyInt, offsetRaster, Int.ceil_neg]

theorem nodata_pixelWindow : pixelWindow nodataRaster sqRing = (0, 0, 2, 2) := by
  have he : envelopeOf sqRing = (0, 2, 0, 2) := rfl
  unfold pixelWindow
  rw [he]
  show (max 0 (pyInt ((0 - nodataRaster.gt.g0) / nodataRaster.gt.g1)),
        max 0 (pyInt ((2 - nodataRaster.gt.g3) / nodataRaster.gt.g5)),
        min nodataRaster.xsize (pyInt ((2 - nodataRaster.gt.g0) / nodataRaster.gt.g1)) -
          max 0 (pyInt ((0 - nodataRaster.gt.g0) / nodataRaster.gt.g1)),
        min nodataRaster.ysize (pyInt ((0 - nodataRaster.gt.g3) / nodataRaster.gt.g5)) -
          max 0 (pyInt ((2 - nodataRaster.gt.g3) / nodataRaster.gt.g5))) =
      ((0 : ℤ), (0 : ℤ), (2 : ℤ), (2 : ℤ))
  norm_num [pyInt, nodataRaster]

/-- Scenario input: a malformed JSON string (`json.loads` raised). -/
def envParseFail : VolEnv :=
  ⟨.error "Expecting value: line 1 column 1 (char 0)", "dsm.tif", true, volProbeEnv⟩

/-- Scenario input: a structurally invalid polygon (`"type": "Point"`). -/
def envInvalidPoly : VolEnv :=
  ⟨.ok (.obj [("type", .str "Point")]), "dsm.tif", true, volProbeEnv⟩

/-- Scenario input: a valid polygon but a missing DSM file. -/
def envMissingFile : VolEnv := ⟨.ok sqPolyJson, "missing.tif", false, volProbeEnv⟩

/-- Scenario input: a valid polygon entirely outside the raster extent. -/
def envNoIntersect : VolEnv := ⟨.ok sqPolyJson, "dsm.tif", true, offsetRaster⟩

/-- Scenario input: a valid polygon over an all-no-data raster window. -/
def envAllNodata : VolEnv := ⟨.ok sqPolyJson, "dsm.tif", true, nodataRaster⟩

/-- Witness for C3: the five failure classes at concrete inputs each produce
their structured error value. -/
theorem volume_tool_error_paths_witness :
    calculateVolumeFromPolygon envParseFail none =
        .err ("Volume calculation failed: " ++ "Expecting value: line 1 column 1 (char 0)")
    ∧ calculateVolumeFromPolygon envInvalidPoly none =
        .err "Invalid GeoJSON polygon format"
    ∧ calculateVolumeFromPolygon envMissingFile none =
        .err ("DSM file not found: " ++ "missing.tif")
    ∧ calculateVolumeFromPolygon envNoIntersect none =
        .err "Volume calculation failed: Polygon does not intersect with DSM raster"
    ∧ calculateVolumeFromPolygon envAllNodata none =
        .err "Volume calculation failed: No valid elevation data found within polygon" := by
  refine ⟨(volume_tool_error_paths envParseFail none).1 _ rfl,
    (volume_tool_error_paths envInvalidPoly none).2.1 _ rfl rfl,
    (volume_tool_error_paths envMissingFile none).2.2.1 _ rfl rfl rfl,
    (volume_tool_error_paths envNoIntersect none).2.2.2.1 sqPolyJson sqRing rfl rfl
      rfl rfl sq_ringPoints ?_,
    (volume_tool_error_paths envAllNodata none).2.2.2.2.1 sqPolyJson sqRing rfl rfl
      rfl rfl sq_ringPoints ?_ ?_⟩
  · left
    rw [show (pixelWindow envNoIntersect.raster sqRing).2.2.1 = -98 by
      rw [show envNoIntersect.raster = offsetRaster from rfl, offset_pixelWindow]]
    decide
  · rw [show envAllNodata.raster = nodataRaster from rfl, nodata_pixelWindow]
    decide
  · rw [show envAllNodata.raster = nodataRaster from rfl, nodata_pixelWindow]
    rfl

theorem distSum_unit_square : distSum scenarioSquare = 4 := by
  unfold scenarioSquare
  simp only [distSum]
  norm_num

/-- C7 counterexample: for the unit square under the identity transformer the
tool's `perimeter_meters` is `4 × 111000 = 444000` — the raw lon/lat edge
lengths times the fixed factor — while the sum of Euclidean edge lengths
of the reprojected ring (the quantity the claim asserts is returned) is
`4`; the two differ. The transformer supplied by the external projection
library is a parameter of the embedding, and the source's perimeter
never applies it (`_calculate_perimeter` is called on the raw
coordinates, line 156). -/
theorem perimeter_not_projected_counterexample :
    (calcPolygonArea id [scenarioSquare]).perimeter_meters = 444000
    ∧ specProjectedPerimeter id scenarioSquare = 4
    ∧ (444000 : ℝ) ≠ 4 := by
  refine ⟨?_, ?_, by norm_num⟩
  · show rawPerimeterRing (outerRing [scenarioSquare]) = 444000
    rw [show outerRing [scenarioSquare] = scenarioSquare from rfl]
    unfold rawPerimeterRing
    rw [distSum_unit_square]
    norm_num
  · unfold specProjectedPerimeter
    rw [List.map_id, distSum_unit_square]

/-- C7 amended: on the geodesic path the returned `perimeter_meters` equals
the sum of raw (unprojected) lon/lat Euclidean edge lengths of the outer
ring multiplied by the fixed factor 111000, and is independent of the
projection transformer used for the area — the reprojection plays no part
in the perimeter. -/
theorem perimeter_raw_formula (T T2 : Point → Point) (rings : List PolyRing) :
    (calcPolygonArea T rings).perimeter_meters =
        distSum (outerRing rings) * 111000
    ∧ (calcPolygonArea T rings).perimeter_meters =
        (calcPolygonArea T2 rings).perimeter_meters :=
  ⟨rfl, rfl⟩

end SpatialTools
